import Mathlib

/-
Verification of the PyBaMM solver-adapter specification.

Part 1 embeds, from the source file
src/pybamm/models/submodels/electrolyte/base_electrolyte_diffusion.py,
the BaseElectrolyteDiffusion.set_events method and a small symbolic
expression language sufficient to represent the single event it builds.

Part 2 models the differentiable (JAX) solver adapter.  The adapter
itself (pybamm.JaxSolver) is not among the provided source files; only
its unit tests are.  Its definitions below are therefore modelled from
the specification: errors are Except values, mutable solver state is
passed explicitly, and the external numeric backend (compilation of the
integration closure) is an abstract function argument of the adapter
operations.  Measured wall-clock durations are likewise abstract
arguments, since real time is outside the embedding.
-/

/-- Symbolic expression language: constants, concrete discretised
vectors, the minimum reduction (pybamm.Function applied to np.min),
and subtraction.  This is the fragment needed by set_events. -/
inductive Expr where
  | const (q : ℚ)
  | vec (vals : List ℚ)
  | minF (e : Expr)
  | sub (a b : Expr)
  deriving DecidableEq

/-- Scalar evaluation of an expression.  The minimum reduction is
defined on a concrete nonempty vector, as np.min is; everything else
that is not a scalar evaluates to none. -/
def Expr.eval : Expr → Option ℚ
  | .const q => some q
  | .vec _ => none
  | .minF e =>
    match e with
    | .vec (v :: vs) => some (vs.foldl min v)
    | _ => none
  | .sub a b =>
    match a.eval, b.eval with
    | some x, some y => some (x - y)
    | _, _ => none

/-- The dictionary key looked up by set_events. -/
def electrolyteKey : String := "Electrolyte concentration"

/-- The constant 0.002 subtracted from the minimum concentration. -/
def eventThreshold : ℚ := 2 / 1000

/-- The submodel state relevant to set_events: its event list. -/
structure BaseElectrolyteDiffusion where
  events : List Expr
  deriving DecidableEq

/-- Embedding of BaseElectrolyteDiffusion.set_events: look up the
electrolyte concentration in the variables dictionary (none models the
KeyError on a missing key) and overwrite the event list with the single
event min(c_e) - 0.002. -/
def BaseElectrolyteDiffusion.set_events (s : BaseElectrolyteDiffusion)
    (varMap : List (String × Expr)) : Option BaseElectrolyteDiffusion :=
  match List.lookup electrolyteKey varMap with
  | some c_e =>
      some { s with events := [Expr.sub (Expr.minF c_e) (Expr.const eventThreshold)] }
  | none => none

/-- Modelled from the spec: a dictionary of named scalar input-parameter
values, resolved at solve time. -/
def Inputs : Type := List (String × ℚ)

/-- Modelled from the spec: the state trajectory, one sequence of values
per state component. -/
def Trajectory : Type := List (List ℚ)

/-- Modelled from the spec: the compiled integration closure, mapping a
dictionary of input values to a trajectory and auxiliary outputs.  The
actual numeric integration is performed by the external backend, so the
closure is kept as an abstract function value. -/
def Closure : Type := Inputs → Trajectory × List ℚ

/-- Modelled from the spec: the lowered model consumed by the adapter —
a representation tag, named termination events, right-hand sides,
initial conditions and named input parameters. -/
structure JaxModel where
  convert_to_format : String
  events : List (String × Expr)
  rhs : List (String × Expr)
  initial_conditions : List (String × ℚ)
  input_parameters : List String
  deriving DecidableEq

/-- Modelled from the spec: the solution object returned by solve. -/
structure Solution where
  t : List ℚ
  y : Trajectory
  termination : String
  set_up_time : ℚ
  solve_time : ℚ
  total_time : ℚ

/-- Modelled from the spec: per-adapter mutable state, a compiled-closure
cache keyed by a structural fingerprint of (model, time-grid shape). -/
structure SolverState where
  cache : Option ((JaxModel × Nat) × Closure)

/-- Modelled from the spec: the adapter error type; all failures surface
as synchronous runtime errors carrying a message. -/
inductive SolverError where
  | runtime (msg : String)
  deriving DecidableEq

/-- The required representation tag. -/
def jaxTag : String := "jax"

/-- The configuration-error message for a model not lowered to JAX. -/
def jaxFormatMsg : String := "Model must be converted to JAX to use this solver"

/-- The unsupported-feature message for declared termination events. -/
def jaxEventsMsg : String := "Terminate events not supported by this solver"

/-- The state-error message for get_solve before any solve. -/
def notSetUpMsg : String := "Model is not set up for solving, run solve first"

/-- The termination reason of every successful solve on this adapter. -/
def finalTimeMsg : String := "final time"

/-- Whether the pattern occurs as a contiguous run inside the haystack. -/
def hasSub : List Char → List Char → Bool
  | [], pat => pat.isEmpty
  | c :: t, pat => pat.isPrefixOf (c :: t) || hasSub t pat

/-- The phrase naming the required representation. -/
def jaxPhrase : String := "must be converted to JAX"

/-- Whether a message names the required representation. -/
def msgNamesJax (msg : String) : Bool :=
  hasSub msg.data jaxPhrase.data

/-- Modelled from the spec: the structural fingerprint keying the
compiled-closure cache — the model structure and the time-grid shape. -/
def fingerprint (model : JaxModel) (t_eval : List ℚ) : JaxModel × Nat :=
  (model, t_eval.length)

/-- Modelled from the spec: cache lookup; a hit requires the stored
fingerprint to match the requested one exactly. -/
def lookupCache (s : SolverState) (key : JaxModel × Nat) : Option Closure :=
  match s.cache with
  | some (k, cl) => if k = key then some cl else none
  | none => none

/-- Modelled from the spec: assembling the solution object — the time
field is the requested grid itself, termination is always the final-time
reason, and the total duration is the sum of solve and set-up time. -/
def mkSolution (t : List ℚ) (y : Trajectory) (su sv : ℚ) : Solution :=
  { t := t
    y := y
    termination := finalTimeMsg
    set_up_time := su
    solve_time := sv
    total_time := sv + su }

/-- Modelled from the spec: solve — reject a model not tagged as lowered
to JAX, then reject any declared termination events, then obtain the
integration closure (from the cache on a structural hit, otherwise by
invoking the external compilation, which is cached), run it on the
inputs and package the solution.  compile stands for the external
backend; su and sv are the measured set-up and solve durations. -/
def solveJax (compile : JaxModel → List ℚ → Closure) (su sv : ℚ)
    (s : SolverState) (model : JaxModel) (t_eval : List ℚ) (inputs : Inputs) :
    Except SolverError (Solution × SolverState) :=
  if model.convert_to_format ≠ jaxTag then
    Except.error (SolverError.runtime jaxFormatMsg)
  else if model.events ≠ [] then
    Except.error (SolverError.runtime jaxEventsMsg)
  else
    match lookupCache s (fingerprint model t_eval) with
    | some cl => Except.ok (mkSolution t_eval ((cl inputs).1) su sv, s)
    | none =>
        Except.ok (mkSolution t_eval ((compile model t_eval inputs).1) su sv,
          ⟨some (fingerprint model t_eval, compile model t_eval)⟩)

/-- Modelled from the spec: get_solve returns the cached closure for
this exact model and time grid, and fails with the state error when the
adapter has not been set up for it by a prior solve. -/
def getSolveJax (s : SolverState) (model : JaxModel) (t_eval : List ℚ) :
    Except SolverError Closure :=
  match lookupCache s (fingerprint model t_eval) with
  | some cl => Except.ok cl
  | none => Except.error (SolverError.runtime notSetUpMsg)

/-- A fresh adapter state with an empty cache. -/
def freshState : SolverState := ⟨none⟩

/-- A concrete external backend used to instantiate theorems. -/
def wCompile : JaxModel → List ℚ → Closure := fun _ _ => fun _ => ([[1]], [])

/-- The state-variable name of the test models. -/
def varName : String := "var"

/-- The input-parameter name of the test models. -/
def rateName : String := "rate"

/-- The name of the first test event. -/
def evUpName : String := "var=0.5"

/-- The name of the second test event. -/
def evDownName : String := "var=-0.5"

/-- A non-matching representation tag. -/
def casadiTag : String := "casadi"

/-- A concrete well-formed model (tagged jax, no events). -/
def wModel : JaxModel :=
  { convert_to_format := jaxTag
    events := []
    rhs := [(varName, Expr.const 1)]
    initial_conditions := [(varName, 1)]
    input_parameters := [rateName] }

/-- A concrete model carrying a non-matching representation tag. -/
def wCasadiModel : JaxModel :=
  { wModel with convert_to_format := casadiTag }

/-- A concrete model with two declared termination events. -/
def wEventsModel : JaxModel :=
  { wModel with
      events := [(evUpName, Expr.sub (Expr.minF (Expr.vec [1])) (Expr.const (1/2))),
                 (evDownName, Expr.sub (Expr.minF (Expr.vec [1])) (Expr.const (-(1/2))))] }

/-- A concrete model that both lacks the jax tag and declares events. -/
def wCasadiEventsModel : JaxModel :=
  { wEventsModel with convert_to_format := casadiTag }

/-- A concrete time grid. -/
def wGrid : List ℚ := [0, 1]

/-- The adapter state after one solve of wModel on wGrid. -/
def wCachedState : SolverState :=
  ⟨some (fingerprint wModel wGrid, wCompile wModel wGrid)⟩

/-- A cache hit determines the stored cache entry. -/
lemma lookupCache_eq_some (s : SolverState) (key : JaxModel × Nat) (cl : Closure)
    (h : lookupCache s key = some cl) : s.cache = some (key, cl) := by
  obtain ⟨oc⟩ := s
  cases oc with
  | none => simp [lookupCache] at h
  | some p =>
      obtain ⟨k, cl0⟩ := p
      by_cases hk : k = key
      · subst hk
        simp [lookupCache] at h
        subst h
        rfl
      · simp [lookupCache, hk] at h

/-- The cache entry written by a solve is found again by lookup. -/
lemma lookupCache_self (key : JaxModel × Nat) (cl : Closure) :
    lookupCache ⟨some (key, cl)⟩ key = some cl := by
  simp [lookupCache]

/-- Inversion of a successful solve: the resulting state caches a
closure under the structural fingerprint, and the solution is assembled
from the output of that closure on the given inputs. -/
lemma solveJax_ok_inv (compile : JaxModel → List ℚ → Closure) (su sv : ℚ)
    (s : SolverState) (model : JaxModel) (t_eval : List ℚ) (inputs : Inputs)
    (sol : Solution) (s' : SolverState)
    (h : solveJax compile su sv s model t_eval inputs = Except.ok (sol, s')) :
    ∃ cl, s'.cache = some (fingerprint model t_eval, cl) ∧
      sol = mkSolution t_eval ((cl inputs).1) su sv := by
  unfold solveJax at h
  split at h
  · exact Except.noConfusion h
  · split at h
    · exact Except.noConfusion h
    · split at h
      · rename_i cl heq
        injection h with hpair
        rw [Prod.mk.injEq] at hpair
        obtain ⟨hsol, hs⟩ := hpair
        exact ⟨cl, by rw [← hs]; exact lookupCache_eq_some _ _ _ heq, hsol.symm⟩
      · injection h with hpair
        rw [Prod.mk.injEq] at hpair
        obtain ⟨hsol, hs⟩ := hpair
        exact ⟨compile model t_eval, by rw [← hs], hsol.symm⟩

/-- A solve that starts from a state already caching a closure for this
fingerprint reuses exactly that closure. -/
lemma solveJax_ok_of_cached (compile : JaxModel → List ℚ → Closure) (su sv : ℚ)
    (s : SolverState) (model : JaxModel) (t_eval : List ℚ) (inputs : Inputs)
    (cl : Closure) (sol : Solution) (s' : SolverState)
    (hc : s.cache = some (fingerprint model t_eval, cl))
    (h : solveJax compile su sv s model t_eval inputs = Except.ok (sol, s')) :
    sol = mkSolution t_eval ((cl inputs).1) su sv := by
  have hl : lookupCache s (fingerprint model t_eval) = some cl := by
    rw [show s = (⟨some (fingerprint model t_eval, cl)⟩ : SolverState) from by
      cases s; simp_all]
    exact lookupCache_self _ _
  unfold solveJax at h
  split at h
  · exact Except.noConfusion h
  · split at h
    · exact Except.noConfusion h
    · split at h
      · rename_i cl2 heq
        rw [hl] at heq
        injection heq with hcl
        subst hcl
        injection h with hpair
        rw [Prod.mk.injEq] at hpair
        exact hpair.1.symm
      · rename_i heq
        rw [hl] at heq
        exact Option.noConfusion heq

/-- get_solve on a fresh adapter fails with the state error. -/
lemma getSolveJax_fresh (model : JaxModel) (t_eval : List ℚ) :
    getSolveJax freshState model t_eval =
      Except.error (SolverError.runtime notSetUpMsg) := rfl

/-- After a successful solve, get_solve for the same model and grid
returns a closure whose output on the solve inputs is exactly the
trajectory that solve returned: the closure is reused, not rebuilt. -/
lemma getSolveJax_after_solve (compile : JaxModel → List ℚ → Closure) (su sv : ℚ)
    (s : SolverState) (model : JaxModel) (t_eval : List ℚ) (inputs : Inputs)
    (sol : Solution) (s' : SolverState)
    (h : solveJax compile su sv s model t_eval inputs = Except.ok (sol, s')) :
    ∃ cl, getSolveJax s' model t_eval = Except.ok cl ∧ sol.y = (cl inputs).1 := by
  obtain ⟨cl, hc, hsol⟩ := solveJax_ok_inv compile su sv s model t_eval inputs sol s' h
  refine ⟨cl, ?_, by rw [hsol]; rfl⟩
  unfold getSolveJax
  rw [show lookupCache s' (fingerprint model t_eval) = some cl from by
    rw [show s' = (⟨some (fingerprint model t_eval, cl)⟩ : SolverState) from by
      cases s'; simp_all]
    exact lookupCache_self _ _]

/-- Claim C1: for every model whose representation tag is not the jax
tag, whatever non-matching tag it carries, solve fails with the
configuration error, whose message names the required representation
(contains the phrase must be converted to JAX); the error return means
no integration is performed and no solution or state change occurs. -/
theorem jaxSolver_rejects_non_jax_format
    (compile : JaxModel → List ℚ → Closure) (su sv : ℚ) (s : SolverState)
    (model : JaxModel) (t_eval : List ℚ) (inputs : Inputs)
    (h : model.convert_to_format ≠ jaxTag) :
    solveJax compile su sv s model t_eval inputs =
      Except.error (SolverError.runtime jaxFormatMsg) ∧
    msgNamesJax jaxFormatMsg = true := by
  refine ⟨?_, by decide⟩
  unfold solveJax
  rw [if_pos h]

/-- Witness for C1 at a concrete casadi-tagged model. -/
theorem jaxSolver_rejects_non_jax_format_witness :
    solveJax wCompile 0 0 freshState wCasadiModel wGrid [] =
      Except.error (SolverError.runtime jaxFormatMsg) ∧
    msgNamesJax jaxFormatMsg = true :=
  jaxSolver_rejects_non_jax_format wCompile 0 0 freshState wCasadiModel wGrid []
    (by decide)

/-- Counterexample to claim C2 as stated: a model that declares two
termination events but carries the casadi tag is rejected by solve with
the representation error, not with the unsupported-events error the
claim requires for every model with events. -/
theorem jaxSolver_events_claim_counterexample :
    solveJax wCompile 0 0 freshState wCasadiEventsModel wGrid [] =
      Except.error (SolverError.runtime jaxFormatMsg) ∧
    solveJax wCompile 0 0 freshState wCasadiEventsModel wGrid [] ≠
      Except.error (SolverError.runtime jaxEventsMsg) := by
  refine ⟨rfl, ?_⟩
  intro h
  have h2 : (Except.error (SolverError.runtime jaxFormatMsg) :
      Except SolverError (Solution × SolverState)) =
      Except.error (SolverError.runtime jaxEventsMsg) := h
  injection h2 with h3
  injection h3 with h4
  exact absurd h4 (by decide)

/-- Claim C2 (amended): for every model carrying the required jax tag
that declares one or more termination events, solve fails with the
unsupported-feature error; the rejection is uniform in the entire event
list — the theorem quantifies over every nonempty list, so no event is
singled out, dropped or partially honoured — and no trajectory is
produced. -/
theorem jaxSolver_rejects_termination_events
    (compile : JaxModel → List ℚ → Closure) (su sv : ℚ) (s : SolverState)
    (model : JaxModel) (t_eval : List ℚ) (inputs : Inputs)
    (hfmt : model.convert_to_format = jaxTag)
    (hev : model.events ≠ []) :
    solveJax compile su sv s model t_eval inputs =
      Except.error (SolverError.runtime jaxEventsMsg) := by
  unfold solveJax
  rw [if_neg (by simp [hfmt]), if_pos hev]

/-- Witness for C2 at a concrete jax-tagged model with two events. -/
theorem jaxSolver_rejects_termination_events_witness :
    solveJax wCompile 0 0 freshState wEventsModel wGrid [] =
      Except.error (SolverError.runtime jaxEventsMsg) :=
  jaxSolver_rejects_termination_events wCompile 0 0 freshState wEventsModel wGrid []
    rfl (by decide)

/-- Claim C5: every successful solve returns a solution whose time
field is exactly the requested time grid. -/
theorem jaxSolver_solution_t_eq_grid
    (compile : JaxModel → List ℚ → Closure) (su sv : ℚ) (s : SolverState)
    (model : JaxModel) (t_eval : List ℚ) (inputs : Inputs)
    (sol : Solution) (s' : SolverState)
    (h : solveJax compile su sv s model t_eval inputs = Except.ok (sol, s')) :
    sol.t = t_eval := by
  obtain ⟨cl, _, hsol⟩ := solveJax_ok_inv compile su sv s model t_eval inputs sol s' h
  rw [hsol]
  rfl

/-- Witness for C5 at a concrete solve. -/
theorem jaxSolver_solution_t_eq_grid_witness :
    (mkSolution wGrid [[1]] 0 0).t = wGrid :=
  jaxSolver_solution_t_eq_grid wCompile 0 0 freshState wModel wGrid []
    (mkSolution wGrid [[1]] 0 0) wCachedState rfl

/-- Claim C6: every solution returned by a successful solve satisfies
total_time = solve_time + set_up_time exactly. -/
theorem jaxSolver_total_time_invariant
    (compile : JaxModel → List ℚ → Closure) (su sv : ℚ) (s : SolverState)
    (model : JaxModel) (t_eval : List ℚ) (inputs : Inputs)
    (sol : Solution) (s' : SolverState)
    (h : solveJax compile su sv s model t_eval inputs = Except.ok (sol, s')) :
    sol.total_time = sol.solve_time + sol.set_up_time := by
  obtain ⟨cl, _, hsol⟩ := solveJax_ok_inv compile su sv s model t_eval inputs sol s' h
  rw [hsol]
  rfl

/-- Witness for C6 at a concrete solve with nonzero durations. -/
theorem jaxSolver_total_time_invariant_witness :
    (mkSolution wGrid [[1]] 3 5).total_time =
      (mkSolution wGrid [[1]] 3 5).solve_time + (mkSolution wGrid [[1]] 3 5).set_up_time :=
  jaxSolver_total_time_invariant wCompile 3 5 freshState wModel wGrid []
    (mkSolution wGrid [[1]] 3 5) wCachedState rfl

/-- Claim C7: every successful solve on this adapter reports the
final-time termination reason, never an event name. -/
theorem jaxSolver_termination_final_time
    (compile : JaxModel → List ℚ → Closure) (su sv : ℚ) (s : SolverState)
    (model : JaxModel) (t_eval : List ℚ) (inputs : Inputs)
    (sol : Solution) (s' : SolverState)
    (h : solveJax compile su sv s model t_eval inputs = Except.ok (sol, s')) :
    sol.termination = finalTimeMsg := by
  obtain ⟨cl, _, hsol⟩ := solveJax_ok_inv compile su sv s model t_eval inputs sol s' h
  rw [hsol]
  rfl

/-- Witness for C7 at a concrete solve. -/
theorem jaxSolver_termination_final_time_witness :
    (mkSolution wGrid [[1]] 0 0).termination = finalTimeMsg :=
  jaxSolver_termination_final_time wCompile 0 0 freshState wModel wGrid []
    (mkSolution wGrid [[1]] 0 0) wCachedState rfl

/-- Claim C8: two successive successful solve calls with the same model,
time grid and inputs on the same adapter state return identical state
trajectories — the second call reuses the cached closure, so repeated
solving is deterministic whatever durations are measured. -/
theorem jaxSolver_repeat_solve_deterministic
    (compile : JaxModel → List ℚ → Closure) (su1 sv1 su2 sv2 : ℚ)
    (s : SolverState) (model : JaxModel) (t_eval : List ℚ) (inputs : Inputs)
    (sol1 sol2 : Solution) (s1 s2 : SolverState)
    (h1 : solveJax compile su1 sv1 s model t_eval inputs = Except.ok (sol1, s1))
    (h2 : solveJax compile su2 sv2 s1 model t_eval inputs = Except.ok (sol2, s2)) :
    sol2.y = sol1.y := by
  obtain ⟨cl, hc, hsol1⟩ := solveJax_ok_inv compile su1 sv1 s model t_eval inputs sol1 s1 h1
  have hsol2 := solveJax_ok_of_cached compile su2 sv2 s1 model t_eval inputs cl sol2 s2 hc h2
  rw [hsol1, hsol2]
  rfl

/-- Witness for C8 at a concrete pair of successive solves. -/
theorem jaxSolver_repeat_solve_deterministic_witness :
    (mkSolution wGrid [[1]] 0 0).y = (mkSolution wGrid [[1]] 0 0).y :=
  jaxSolver_repeat_solve_deterministic wCompile 0 0 0 0 freshState wModel wGrid []
    (mkSolution wGrid [[1]] 0 0) (mkSolution wGrid [[1]] 0 0) wCachedState wCachedState
    rfl rfl

/-- Claim C10: whenever the variables dictionary maps the electrolyte
concentration key to a concrete nonempty vector, set_events replaces the
event list of the submodel — whatever it held before — by the single
event min(c_e) - 0.002, whose value is positive exactly when the minimum
electrolyte concentration exceeds 0.002. -/
theorem set_events_single_min_event
    (s : BaseElectrolyteDiffusion) (varMap : List (String × Expr))
    (v : ℚ) (vs : List ℚ)
    (h : List.lookup electrolyteKey varMap = some (Expr.vec (v :: vs))) :
    s.set_events varMap =
      some ⟨[Expr.sub (Expr.minF (Expr.vec (v :: vs))) (Expr.const eventThreshold)]⟩ ∧
    (Expr.sub (Expr.minF (Expr.vec (v :: vs))) (Expr.const eventThreshold)).eval =
      some (vs.foldl min v - eventThreshold) ∧
    (0 < vs.foldl min v - eventThreshold ↔ eventThreshold < vs.foldl min v) := by
  refine ⟨?_, rfl, sub_pos⟩
  unfold BaseElectrolyteDiffusion.set_events
  rw [h]

/-- Witness for C10: a submodel with a prior event and a concrete
two-point concentration vector. -/
theorem set_events_single_min_event_witness :
    BaseElectrolyteDiffusion.set_events ⟨[Expr.const 7]⟩
      [(electrolyteKey, Expr.vec [3/1000, 5/1000])] =
      some ⟨[Expr.sub (Expr.minF (Expr.vec [3/1000, 5/1000])) (Expr.const eventThreshold)]⟩ ∧
    (Expr.sub (Expr.minF (Expr.vec [3/1000, 5/1000])) (Expr.const eventThreshold)).eval =
      some (([5/1000] : List ℚ).foldl min (3/1000) - eventThreshold) ∧
    (0 < ([5/1000] : List ℚ).foldl min (3/1000) - eventThreshold ↔
      eventThreshold < ([5/1000] : List ℚ).foldl min (3/1000)) :=
  set_events_single_min_event ⟨[Expr.const 7]⟩
    [(electrolyteKey, Expr.vec [3/1000, 5/1000])] (3/1000) [5/1000] rfl
